import Mathlib

set_option maxHeartbeats 1000000
set_option linter.unusedVariables false

/-!
Verification development for the file-transfer engine of the repository
(src/video_agent/file_transfer.py, class FileTransfer).

The Python source is shallowly embedded:
  * JSON-like data returned by the provisioning status API is the inductive
    type JVal; Python truthiness, membership and indexing are modelled by
    pyTruthy, jGet and jIndex.
  * The two regular-expression searches in FileTransfer._get_instance_ip
    are modelled character-by-character (searchAtHost, searchPortFrag).
  * Effectful methods are modelled in a state/trace/exception monad M:
    a computation maps a state (SSH-manager connectedness plus a call
    counter) to a new state, a list of externally observable events, and
    an Except result.  External collaborators (remote command execution,
    scp subprocesses, curl calls to the relay hosts, the environment, the
    interactive prompt) are oracles collected in a World structure; each
    oracle is indexed by the call counter so that its answers may vary
    from call to call.
-/

/-- JSON-like values (the result of json.loads, or dicts handed over directly
by the provisioning status API). -/
inductive JVal where
  | null : JVal
  | bool : Bool → JVal
  | num : Int → JVal
  | str : String → JVal
  | arr : List JVal → JVal
  | obj : List (String × JVal) → JVal

/-- Dictionary lookup (fields of a JSON object have unique keys). -/
def jGet : List (String × JVal) → String → Option JVal
  | [], _ => none
  | (k, v) :: rest, key => if k = key then some v else jGet rest key

/-- Python truthiness of a JSON value. -/
def pyTruthy : JVal → Bool
  | .null => false
  | .bool b => b
  | .num n => n != 0
  | .str s => s != ""
  | .arr xs => ¬ xs.isEmpty
  | .obj fs => ¬ fs.isEmpty

/-- A field access of the form `"k" in d and d["k"]` (present and truthy). -/
def truthyField (fs : List (String × JVal)) (k : String) : Option JVal :=
  match jGet fs k with
  | some v => if pyTruthy v then some v else none
  | none => none

/-- The record with one field removed, used to state that an unusable
sshCommand behaves as if the field were absent. -/
def removeField : List (String × JVal) → String → List (String × JVal)
  | [], _ => []
  | (k', v) :: rest, k => if k' = k then removeField rest k else (k', v) :: removeField rest k

/-- Python indexing v[k] with a string key: KeyError on a missing key of a
dict, TypeError on anything that is not a dict. -/
def jIndex (v : JVal) (k : String) : Except String JVal :=
  match v with
  | .obj fs =>
    match jGet fs k with
    | some x => .ok x
    | none => .error "KeyError"
  | _ => .error ("TypeError: value is not subscriptable by string " ++ k)

/-- Python str() rendering, for the places where the source interpolates a
value into an f-string.  The reachable code only ever renders strings and
numbers; the rendering of containers is simplified. -/
def pyStr : JVal → String
  | .str s => s
  | .num n => toString n
  | .bool b => if b then "True" else "False"
  | .null => "None"
  | .arr _ => "[...]"
  | .obj _ => "..."

/-- The whitespace class of Python's str.strip and the regex class \s
(ASCII part). -/
def isPySpace (c : Char) : Bool :=
  c = ' ' || c = '\t' || c = '\n' || c = '\x0d' || c = '\x0b' || c = '\x0c'

/-- Characters admitted by the host group of the regex, i.e. [^:\s]. -/
def isHostChar (c : Char) : Bool := ¬ (c = ':' || isPySpace c)

/-- Model of re.search applied to the host pattern: scan left to right for
an at-sign followed by at least one character that is neither a colon nor
whitespace; the group is the maximal such run (greedy). -/
def searchAtHost : List Char → Option String
  | [] => none
  | c :: rest =>
    (if c = '@' then
      let h := rest.takeWhile isHostChar
      if h ≠ [] then some (String.mk h) else none
    else none) <|> searchAtHost rest

/-- Model of re.search applied to the port pattern: scan left to right for
a dash, the letter p, at least one whitespace character, and at least one
digit; the group is the maximal digit run (greedy). -/
def searchPortFrag : List Char → Option (List Char)
  | [] => none
  | c :: rest =>
    (if c = '-' then
      match rest with
      | 'p' :: rest2 =>
        let ws := rest2.takeWhile isPySpace
        let after := rest2.drop ws.length
        let ds := after.takeWhile Char.isDigit
        if ws ≠ [] ∧ ds ≠ [] then some ds else none
      | _ => none
    else none) <|> searchPortFrag rest

/-- Numeric value of a digit run (int() applied to the matched port group;
the group consists of digits only, so the conversion cannot fail). -/
def digitsVal (ds : List Char) : Nat :=
  ds.foldl (fun a c => 10 * a + (c.toNat - '0'.toNat)) 0

/-- Parsing of an embedded SSH command string, FileTransfer._get_instance_ip
lines 133-147 and 195-209: a host match yields the host together with the
port from the port fragment when one matches, the default 22 otherwise. -/
def parsedSshCmd (s : String) : Option (String × Int) :=
  match searchAtHost s.toList with
  | none => none
  | some h =>
    let p : Int :=
      match searchPortFrag s.toList with
      | some ds => Int.ofNat (digitsVal ds)
      | none => 22
    some (h, p)

/-- Python int() applied to a string: strip whitespace, optional sign,
then a non-empty digit run (underscore separators are not modelled; the
source only reaches this through the ssh.port field). -/
def pyIntOfStr (s : String) : Option Int :=
  let t := (s.toList.dropWhile isPySpace).reverse.dropWhile isPySpace |>.reverse
  match t with
  | '-' :: ds => if ds ≠ [] ∧ ds.all Char.isDigit then some (-(Int.ofNat (digitsVal ds))) else none
  | '+' :: ds => if ds ≠ [] ∧ ds.all Char.isDigit then some (Int.ofNat (digitsVal ds)) else none
  | ds => if ds ≠ [] ∧ ds.all Char.isDigit then some (Int.ofNat (digitsVal ds)) else none

/-- Python int() applied to a JSON value; none stands for a raised
ValueError or TypeError, which the source catches. -/
def pyToInt : JVal → Option Int
  | .num n => some n
  | .bool b => some (if b then 1 else 0)
  | .str s => pyIntOfStr s
  | _ => none

/-- Scan of the nested instance record for the fields ip, ipAddress,
hostname, address in that order, first truthy value wins
(_get_instance_ip lines 211-216). -/
def nestedFieldScan (inFs : List (String × JVal)) : Option JVal :=
  match truthyField inFs "ip" with
  | some v => some v
  | none =>
    match truthyField inFs "ipAddress" with
    | some v => some v
    | none =>
      match truthyField inFs "hostname" with
      | some v => some v
      | none => truthyField inFs "address"

/-- Resolution inside the nested instance object (_get_instance_ip lines
187-216): a usable nested sshCommand returns immediately; otherwise the
field scan decides, with port 22. -/
def resolveNested (inFs : List (String × JVal)) : Except String (Option (JVal × Int)) :=
  match truthyField inFs "sshCommand" with
  | some (.str cmd) =>
    (match parsedSshCmd cmd with
     | some hp => .ok (some (.str hp.1, hp.2))
     | none => .ok ((nestedFieldScan inFs).map (fun v => (v, 22))))
  | some _ => .error "TypeError: re.search expects a string"
  | none => .ok ((nestedFieldScan inFs).map (fun v => (v, 22)))

/-- The flat/nested if-elif chain of _get_instance_ip (lines 149-220),
entered when no usable top-level sshCommand returned already: flat ip,
flat ipAddress, nested ssh object, nested network object, nested status
object, nested instance object, connected as exclusive alternatives. -/
def resolveFlat (fs : List (String × JVal)) : Except String (Option (JVal × Int)) :=
  match truthyField fs "ip" with
  | some v => .ok (some (v, 22))
  | none =>
  match truthyField fs "ipAddress" with
  | some v => .ok (some (v, 22))
  | none =>
  match jGet fs "ssh" with
  | some (.obj sshFs) =>
    let port : Int :=
      match truthyField sshFs "port" with
      | some pv => (pyToInt pv).getD 22
      | none => 22
    .ok ((truthyField sshFs "host").map (fun v => (v, port)))
  | _ =>
  match jGet fs "network" with
  | some (.obj nFs) => .ok ((truthyField nFs "ip").map (fun v => (v, 22)))
  | _ =>
  match jGet fs "status" with
  | some (.obj stFs) => .ok ((truthyField stFs "ip").map (fun v => (v, 22)))
  | _ =>
  match jGet fs "instance" with
  | some (.obj inFs) => resolveNested inFs
  | _ => .ok none

/-- Host/port resolution within a matched instance record
(_get_instance_ip lines 124-220).  A present and truthy sshCommand field
is parsed first; a host match returns immediately; with no host match the
code falls through to the flat/nested chain.  The error case models the
TypeError re.search raises on a truthy non-string sshCommand. -/
def resolveInstanceIp (fs : List (String × JVal)) : Except String (Option (JVal × Int)) :=
  match truthyField fs "sshCommand" with
  | some (.str cmd) =>
    (match parsedSshCmd cmd with
     | some hp => .ok (some (.str hp.1, hp.2))
     | none => resolveFlat fs)
  | some _ => .error "TypeError: re.search expects a string"
  | none => resolveFlat fs

/-- Does the second list occur as a leading segment of the first? -/
def startsList : List Char → List Char → Bool
  | _, [] => true
  | [], _ :: _ => false
  | a :: as, b :: bs => a = b && startsList as bs

/-- Does sub occur as a contiguous run inside hay? -/
def hasSub (hay sub : List Char) : Bool :=
  match hay with
  | [] => sub.isEmpty
  | _ :: rest => startsList hay sub || hasSub rest sub

/-- Python's substring containment, sub in hay. -/
def strContains (hay sub : String) : Bool := hasSub hay.toList sub.toList

/-- Python's str.startswith. -/
def strStarts (s p : String) : Bool := startsList s.toList p.toList

/-- Python's str.strip (whitespace at both ends). -/
def stripStr (s : String) : String :=
  String.mk (((s.toList.dropWhile isPySpace).reverse.dropWhile isPySpace).reverse)

/-- Split a character list at every occurrence of the separator (Python's
str.split with an explicit separator keeps empty fragments). -/
def splitOnChar (c : Char) : List Char → List (List Char)
  | [] => [[]]
  | a :: as =>
    if a = c then [] :: splitOnChar c as
    else
      match splitOnChar c as with
      | [] => [[a]]
      | g :: gs => (a :: g) :: gs

/-- Python's str.split applied with the newline separator. -/
def splitLines (s : String) : List String :=
  (splitOnChar '\n' s.toList).map String.mk

/-- Characters of a path after the last slash (os.path.basename). -/
def basename (s : String) : String :=
  String.mk (((s.toList.reverse).takeWhile (fun c => c ≠ '/')).reverse)

/-- Characters of a path before the last slash, empty when there is no
slash (os.path.dirname). -/
def dirname (s : String) : String :=
  if (s.toList.any (fun c => c = '/')) then
    String.mk ((s.toList.reverse.dropWhile (fun c => c ≠ '/')).drop 1).reverse
  else ""

/-- str(Path(p).parent): like dirname but a bare file name yields ".". -/
def parentDir (s : String) : String :=
  let d := dirname s
  if d = "" then "." else d

/-- os.path.join for the shapes reached here (second component relative). -/
def joinPath (a b : String) : String := a ++ "/" ++ b

/-- os.path.relpath for the case reached in download_directory: the listed
file paths start with the remote directory. The general normalisation of
os.path.relpath is simplified to that case. -/
def relPathOf (p base : String) : String :=
  if strStarts p (base ++ "/") then String.mk (p.toList.drop (base.length + 1)) else p

/-- Membership test of Python's in-operator for the shapes the status data
can take: key of a dict, element of a list (string elements only can
equal a string key), substring of a string. -/
def jMember (v : JVal) (k : String) : Except String Bool :=
  match v with
  | .obj fs => .ok ((jGet fs k).isSome)
  | .arr xs => .ok (xs.any (fun x => match x with | .str s => s == k | _ => false))
  | .str s => .ok (hasSub s.toList k.toList)
  | _ => .error "TypeError: argument of in is not iterable"

/-- Python iteration over the extracted instances value: list elements,
dict keys, string characters; TypeError otherwise. -/
def pyIterate : JVal → Except String (List JVal)
  | .arr xs => .ok xs
  | .obj fs => .ok (fs.map (fun kv => .str kv.1))
  | .str s => .ok (s.toList.map (fun c => .str (String.mk [c])))
  | _ => .error "TypeError: value is not iterable"

/-- Extraction of the instance list from the heterogeneous status shapes
(_get_instance_ip lines 103-113): top-level instances list, top-level
data list, data.instances (the last without a list check, as in the
source); the default is the empty list. -/
def extractInstances (status : JVal) : Except String JVal := do
  let m1 ← jMember status "instances"
  let c1 ← if m1 then do
      let v ← jIndex status "instances"
      pure (match v with | .arr _ => some v | _ => none)
    else pure none
  match c1 with
  | some v => pure v
  | none => do
    let m2 ← jMember status "data"
    let c2 ← if m2 then do
        let v ← jIndex status "data"
        pure (match v with | .arr _ => some v | _ => none)
      else pure none
    match c2 with
    | some v => pure v
    | none => do
      let c3 ← if m2 then do
          let d ← jIndex status "data"
          match d with
          | .obj dfs => do
            let m3 ← jMember (.obj dfs) "instances"
            if m3 then do
              let v ← jIndex (.obj dfs) "instances"
              pure (some v)
            else pure none
          | _ => pure none
        else pure none
      match c3 with
      | some v => pure v
      | none => pure (.arr [])

/-- Scan of the instance list for the record whose id field equals the
requested instance id (_get_instance_ip lines 115-118); a non-dict
element raises AttributeError at the .get call, as in Python. -/
def findInst (iid : String) : List JVal → Except String (Option (List (String × JVal)))
  | [] => .ok none
  | .obj fs :: rest =>
    if (match jGet fs "id" with | some (.str s) => s == iid | _ => false) then
      .ok (some fs)
    else findInst iid rest
  | _ :: _ => .error "AttributeError: value has no attribute get"

/-- The pure part of FileTransfer._get_instance_ip: the status data is
either already-structured JSON or a string; a string that fails to parse
yields not-found (the source prints and returns None).  The oracle
supplying this value returns the decoded JSON, with a decode failure
represented as the Unit error. -/
def getInstanceIpPure (statusData : Except Unit JVal) (iid : String) :
    Except String (Option (JVal × Int)) :=
  match statusData with
  | .error _ => .ok none
  | .ok status => do
    let instsV ← extractInstances status
    let insts ← pyIterate instsV
    let found ← findInst iid insts
    match found with
    | none => pure none
    | some fs => resolveInstanceIp fs

/-- Externally observable events of the effectful methods. -/
inductive Event where
  | readEnv : String → Event
  | getStatus : Event
  | connectTry : String → String → Int → Event
  | execRemote : String → Option Nat → Event
  | runScp : List String → Event
  | curlSmallUpload : String → Event
  | curlGetServer : Event
  | curlLargeUpload : String → Event
  | runTar : String → Event
  | makeTemp : String → Event
  | makeDirsLocal : String → Event
  | unlinkLocal : String → Event
  | promptUrl : Event
  | sleep : Nat → Event
deriving DecidableEq

/-- Session state: whether the process-wide ssh_manager reports a live
connection, plus a counter of external calls (used to index oracles). -/
structure St where
  connected : Bool
  time : Nat
deriving DecidableEq

/-- The oracles standing for the external collaborators.  Every oracle
takes the call counter, so its answer may differ from call to call.
Oracles that model fallible calls return Except; the error is the message
of the raised exception.  curlSmall is the local curl push to the
small-file host (check=True; the returned string is its stdout);
gofileServer and gofileUpload return the json.loads-decoded responses of
the two large-file host calls, a decode failure or curl failure being the
error case. -/
structure World where
  envKeyPath : Option String
  envKeyPassword : Option String
  expandUser : String → String
  pathExists : String → Bool
  isDir : String → Bool
  fileSize : String → Nat
  statusData : Nat → Except Unit JVal
  connectRes : Nat → String → String → Int → String
  connStatus : String
  connHost : String
  connUser : String
  connPort : Int
  execRemote : Nat → String → Option Nat → Except String String
  scpRun : Nat → List String → Except String Int
  curlSmall : Nat → String → Except String String
  gofileServer : Nat → Except String JVal
  gofileUpload : Nat → String → Except String JVal
  uuidHex : Nat → String
  inputUrl : Nat → String
  tarRun : Nat → String → Except String Unit
  tempName : Nat → String

/-- The computation monad: state in, state out, trace of events, result
or raised exception message. -/
def M (α : Type) : Type := St → St × List Event × Except String α

def mPure {α : Type} (a : α) : M α := fun s => (s, [], .ok a)

def mBind {α β : Type} (x : M α) (f : α → M β) : M β := fun s =>
  match x s with
  | (s', tr, .ok a) =>
    match f a s' with
    | (s'', tr', r) => (s'', tr ++ tr', r)
  | (s', tr, .error e) => (s', tr, .error e)

instance : Monad M where
  pure := mPure
  bind := mBind

def mGet : M St := fun s => (s, [], .ok s)

def mEmit (e : Event) : M Unit := fun s => (s, [e], .ok ())

def mThrow {α : Type} (msg : String) : M α := fun s => (s, [], .error msg)

def mSetConnected : M Unit := fun s => ({ s with connected := true }, [], .ok ())

/-- Consume one oracle index; returns the pre-increment counter. -/
def mTick : M Nat := fun s => ({ s with time := s.time + 1 }, [], .ok s.time)

def liftExc {α : Type} (x : Except String α) : M α := fun s => (s, [], x)

/-- Python try/except Exception: run the body; on a raised exception run
the handler from the body's intermediate state. -/
def tryCatchM {α : Type} (m : M α) (h : String → M α) : M α := fun s =>
  match m s with
  | (s', tr, .ok a) => (s', tr, .ok a)
  | (s', tr, .error e) =>
    match h e s' with
    | (s'', tr', r) => (s'', tr ++ tr', r)

/-- Python try/finally: the cleanup runs whether the body returned or
raised; the body's outcome is reported unless the cleanup itself raises. -/
def tryFinallyM {α : Type} (m : M α) (fin : M Unit) : M α := fun s =>
  match m s with
  | (s', tr, r) =>
    match fin s' with
    | (s'', tr', .ok _) => (s'', tr ++ tr', r)
    | (s'', tr', .error e) => (s'', tr ++ tr', .error e)

def callStatus (w : World) : M (Except Unit JVal) := do
  mEmit .getStatus
  let t ← mTick
  pure (w.statusData t)

def callConnect (w : World) (host : JVal) (user : String) (port : Int) : M String := do
  mEmit (.connectTry (pyStr host) user port)
  let t ← mTick
  pure (w.connectRes t (pyStr host) user port)

def callExec (w : World) (cmd : String) (timeout : Option Nat) : M String := do
  mEmit (.execRemote cmd timeout)
  let t ← mTick
  liftExc (w.execRemote t cmd timeout)

def callScp (w : World) (args : List String) : M Int := do
  mEmit (.runScp args)
  let t ← mTick
  liftExc (w.scpRun t args)

def callCurlSmall (w : World) (url : String) : M String := do
  mEmit (.curlSmallUpload url)
  let t ← mTick
  liftExc (w.curlSmall t url)

def callGofileServer (w : World) : M JVal := do
  mEmit .curlGetServer
  let t ← mTick
  liftExc (w.gofileServer t)

def callGofileUpload (w : World) (server : String) : M JVal := do
  mEmit (.curlLargeUpload server)
  let t ← mTick
  liftExc (w.gofileUpload t server)

def callUuid (w : World) : M String := do
  let t ← mTick
  pure (w.uuidHex t)

def callInput (w : World) : M String := do
  mEmit .promptUrl
  let t ← mTick
  pure (w.inputUrl t)

def callTar (w : World) (archive : String) : M Unit := do
  mEmit (.runTar archive)
  let t ← mTick
  liftExc (w.tarRun t archive)

def callTemp (w : World) : M String := do
  let t ← mTick
  let nm := w.tempName t
  mEmit (.makeTemp nm)
  pure nm

/-- FileTransfer._ensure_ssh_access: return at once when the session
manager already reports a live connection; otherwise read the key path
from the environment (fatal when unset or missing), read the optional
passphrase, resolve the endpoint (fatal when unresolved), and try the
handshake with the ubuntu user, then the root user; a success marker in
the final result is required, and on success the manager reports
connected from then on. -/
def ensure_ssh_access (w : World) (iid : String) : M Unit := do
  let s ← mGet
  if s.connected then
    pure ()
  else do
    mEmit (.readEnv "SSH_PRIVATE_KEY_PATH")
    match w.envKeyPath with
    | none => mThrow "SSH_PRIVATE_KEY_PATH environment variable is required but not set"
    | some kp0 => do
      let kp := w.expandUser kp0
      if ¬ w.pathExists kp then
        mThrow ("SSH key file not found at " ++ kp)
      else do
        mEmit (.readEnv "SSH_KEY_PASSWORD")
        mEmit .getStatus
        let t ← mTick
        let ipInfo ← liftExc (getInstanceIpPure (w.statusData t) iid)
        match ipInfo with
        | none => mThrow ("Could not determine IP address for instance " ++ iid)
        | some (host, port) => do
          let r1 ← callConnect w host "ubuntu" port
          let r2 ← if strContains r1 "Successfully connected" then pure r1
                   else callConnect w host "root" port
          if strContains r2 "Successfully connected" then
            mSetConnected
          else
            mThrow ("Failed to establish SSH connection: " ++ r2)

/-- SSH connection info as assembled by FileTransfer._get_ssh_info. -/
structure SshInfo where
  host : JVal
  username : String
  port : Int

/-- FileTransfer._get_ssh_info: when the manager is connected and its
connection info reports status connected, use that host/username/port;
otherwise resolve the instance endpoint (fatal when unresolved) and use
the default ubuntu username. -/
def get_ssh_info (w : World) (iid : String) : M SshInfo := do
  let s ← mGet
  if s.connected && (w.connStatus == "connected") then
    pure ⟨.str w.connHost, w.connUser, w.connPort⟩
  else do
    mEmit .getStatus
    let t ← mTick
    let ipInfo ← liftExc (getInstanceIpPure (w.statusData t) iid)
    match ipInfo with
    | none => mThrow ("Could not determine IP address for instance " ++ iid)
    | some (host, port) => pure ⟨host, "ubuntu", port⟩

/-- The retry loop shared (verbatim, modulo the attempt body) by direct
upload, direct download and both relay tiers: run the body; a successful
body ends the loop; a failed body sleeps 5 * (attempt + 1) seconds unless
it was the final attempt.  rem is the number of attempts left, i the
number of attempts already made. -/
def retryAttempts (body : M Bool) : Nat → Nat → M Bool
  | 0, _ => pure false
  | rem + 1, i => do
    let ok ← body
    if ok then pure true
    else if rem == 0 then pure false
    else do
      mEmit (.sleep (5 * (i + 1)))
      retryAttempts body rem (i + 1)

/-- The scp command line built by upload_file (fixed option set). -/
def scpUploadArgs (info : SshInfo) (kp lp rp : String) : List String :=
  ["scp", "-P", toString info.port, "-o", "StrictHostKeyChecking=no",
   "-o", "UserKnownHostsFile=/dev/null", "-o", "ConnectTimeout=30",
   "-o", "ServerAliveInterval=30", "-i", kp, lp,
   info.username ++ "@" ++ pyStr info.host ++ ":" ++ rp]

/-- The scp command line built by download_file (fixed option set). -/
def scpDownloadArgs (info : SshInfo) (kp rp lp : String) : List String :=
  ["scp", "-P", toString info.port, "-o", "StrictHostKeyChecking=no",
   "-o", "UserKnownHostsFile=/dev/null", "-o", "ConnectTimeout=30",
   "-o", "ServerAliveInterval=30", "-i", kp,
   info.username ++ "@" ++ pyStr info.host ++ ":" ++ rp, lp]

/-- One attempt of the direct-upload loop (upload_file lines 267-301):
run scp; on exit code 0 verify remote existence by sentinel; every raised
exception is caught and counts as a failed attempt. -/
def scpUploadBody (w : World) (args : List String) (rp : String) : M Bool :=
  tryCatchM (do
    let rc ← callScp w args
    if rc == 0 then do
      let vr ← callExec w ("test -f " ++ rp ++ " && echo 'exists'") .none
      if strContains vr "exists" then pure true else pure false
    else pure false)
  (fun _ => pure false)

/-- One attempt of the direct-download loop (download_file lines 521-553):
run scp; on exit code 0 verify local existence; exceptions are caught and
count as a failed attempt. -/
def scpDownloadBody (w : World) (args : List String) (lp : String) : M Bool :=
  tryCatchM (do
    let rc ← callScp w args
    if rc == 0 then
      if w.pathExists lp then pure true else pure false
    else pure false)
  (fun _ => pure false)

/-- One attempt of the small-file relay tier (upload_via_curl lines
335-374): fresh unique name, push to the small-file host, instruct the
remote to fetch the returned url (timeout 300) expecting the success
sentinel, then verify the destination is a non-empty remote file;
exceptions are caught and count as a failed attempt. -/
def smallAttempt (w : World) (lp rp : String) : M Bool := do
    let u ← callUuid w
    let uniqueFilename := u ++ "_" ++ basename lp
    let outS ← callCurlSmall w ("https://transfer.sh/" ++ uniqueFilename)
    let downloadUrl := stripStr outS
    let res ← callExec w ("curl -s -L '" ++ downloadUrl ++ "' -o '" ++ rp ++ "' && echo 'success'") (some 300)
    if strContains res "success" then do
      let vr ← callExec w ("test -s '" ++ rp ++ "' && echo 'exists'") .none
      if strContains vr "exists" then pure true else pure false
    else pure false

/-- One attempt of the small-file relay tier wrapped in its try/except:
every raised exception counts as a failed attempt. -/
def smallBody (w : World) (lp rp : String) : M Bool :=
  tryCatchM (smallAttempt w lp rp) (fun _ => pure false)

/-- The check server_data.get("status") == "ok" of the gofile protocol:
an AttributeError on non-dicts (caught by the attempt's except), and a
comparison of the status field with the ok marker otherwise. -/
def dictStatusOk (v : JVal) : M Bool :=
  match v with
  | .obj fs => pure (match jGet fs "status" with | some (.str s) => s == "ok" | _ => false)
  | _ => mThrow "AttributeError: value has no attribute get"

/-- One attempt of the large-file relay tier (upload_via_curl lines
384-441): ask the directory service for an upload server (fatal inside
the attempt unless its status is ok), upload the file to that server,
and when the upload reports ok fetch the direct link remotely (timeout
600) and verify; exceptions are caught and count as a failed attempt. -/
def largeAttempt (w : World) (lp rp : String) : M Bool := do
    let sd ← callGofileServer w
    let statusOk ← dictStatusOk sd
    if statusOk = false then mThrow "Failed to get gofile.io server"
    else do
      let dataV ← liftExc (jIndex sd "data")
      let serverV ← liftExc (jIndex dataV "server")
      let ur ← callGofileUpload w (pyStr serverV)
      let upOk ← dictStatusOk ur
      if upOk then do
        let udata ← liftExc (jIndex ur "data")
        let _downloadPage ← liftExc (jIndex udata "downloadPage")
        let _fileId ← liftExc (jIndex udata "fileId")
        let directLink ← liftExc (jIndex udata "downloadLink")
        let res ← callExec w ("curl -s -L '" ++ pyStr directLink ++ "' -o '" ++ rp ++ "' && echo 'success'") (some 600)
        if strContains res "success" then do
          let vr ← callExec w ("test -s '" ++ rp ++ "' && echo 'exists'") .none
          if strContains vr "exists" then pure true else pure false
        else pure false
      else pure false

/-- One attempt of the large-file relay tier wrapped in its try/except:
every raised exception counts as a failed attempt. -/
def largeBody (w : World) (lp rp : String) : M Bool :=
  tryCatchM (largeAttempt w lp rp) (fun _ => pure false)

def curlFailMsg (n : Nat) (lp : String) : String :=
  "Failed to upload file via curl after " ++ toString n ++ " attempts: " ++ lp

def hugeFailMsg : String :=
  "Failed to upload large file. Please use a cloud service and provide a download URL."

/-- FileTransfer.upload_via_curl: existence check of the local file, then
the size tier is computed once from the size in megabytes; strictly below
25 MB the small-file loop runs, from 25 MB strictly below 2000 MB the
large-file loop runs, and an exhausted loop raises the fatal curl error;
at 2000 MB and above the caller is prompted for a manual url, a non-empty
answer makes the remote fetch it with timeout 1800 followed by the
verification, and every other outcome raises the fatal large-file error.
Sizes are in bytes; size/(1024*1024) < bound is exact as size < bound *
1048576 (the float division is by a power of two). -/
def upload_via_curl (w : World) (iid lp rp : String) (maxRetries : Nat) : M Unit := do
  if ¬ w.pathExists lp then mThrow ("Local file not found: " ++ lp)
  else
    let sizeB := w.fileSize lp
    if sizeB < 25 * 1048576 then do
      let ok ← retryAttempts (smallBody w lp rp) maxRetries 0
      if ok then pure () else mThrow (curlFailMsg maxRetries lp)
    else if sizeB < 2000 * 1048576 then do
      let ok ← retryAttempts (largeBody w lp rp) maxRetries 0
      if ok then pure () else mThrow (curlFailMsg maxRetries lp)
    else do
      let url ← callInput w
      if url ≠ "" then do
        let got ← tryCatchM (do
            let res ← callExec w ("curl -s -L '" ++ url ++ "' -o '" ++ rp ++ "' && echo 'success'") (some 1800)
            if strContains res "success" then do
              let vr ← callExec w ("test -s '" ++ rp ++ "' && echo 'exists'") .none
              if strContains vr "exists" then pure true else pure false
            else pure false)
          (fun _ => pure false)
        if got then pure () else mThrow hugeFailMsg
      else mThrow hugeFailMsg

def uploadFailMsg (n : Nat) (lp : String) : String :=
  "Failed to upload file after " ++ toString n ++ " attempts: " ++ lp

/-- FileTransfer.upload_file: local existence check, ensure the
connection, create the remote parent directory, then try the relay
uploader; any exception from it switches to the direct scp loop, freshly
budgeted with the same max_retries; exhausting that loop raises the
fatal upload error. -/
def upload_file (w : World) (iid lp rp : String) (maxRetries : Nat) : M Unit := do
  if ¬ w.pathExists lp then mThrow ("Local file not found: " ++ lp)
  else do
    ensure_ssh_access w iid
    let _ ← callExec w ("mkdir -p " ++ parentDir rp) .none
    tryCatchM (upload_via_curl w iid lp rp maxRetries)
      (fun _ => do
        let info ← get_ssh_info w iid
        mEmit (.readEnv "SSH_PRIVATE_KEY_PATH")
        match w.envKeyPath with
        | none => mThrow "SSH_PRIVATE_KEY_PATH environment variable is required but not set"
        | some kp0 => do
          let kp := w.expandUser kp0
          let ok ← retryAttempts (scpUploadBody w (scpUploadArgs info kp lp rp) rp) maxRetries 0
          if ok then pure () else mThrow (uploadFailMsg maxRetries lp))

def downloadFailMsg (n : Nat) (rp : String) : String :=
  "Failed to download file after " ++ toString n ++ " attempts: " ++ rp

/-- FileTransfer.download_file: ensure the connection, create the local
parent directory, assemble connection info and key path, verify remote
existence up front (fatal not-found when the sentinel is missing), then
run the direct download loop; exhausting it raises the fatal download
error. -/
def download_file (w : World) (iid rp lp : String) (maxRetries : Nat) : M Unit := do
  ensure_ssh_access w iid
  mEmit (.makeDirsLocal (dirname lp))
  let info ← get_ssh_info w iid
  mEmit (.readEnv "SSH_PRIVATE_KEY_PATH")
  match w.envKeyPath with
  | none => mThrow "SSH_PRIVATE_KEY_PATH environment variable is required but not set"
  | some kp0 => do
    let kp := w.expandUser kp0
    let vr ← callExec w ("test -f " ++ rp ++ " && echo 'exists'") .none
    if ¬ strContains vr "exists" then mThrow ("Remote file not found: " ++ rp)
    else do
      let ok ← retryAttempts (scpDownloadBody w (scpDownloadArgs info kp rp lp) lp) maxRetries 0
      if ok then pure () else mThrow (downloadFailMsg maxRetries rp)

/-- The try-block of FileTransfer.upload_directory (lines 585-613):
archive with tar, transfer the archive (relay first, full upload_file as
fallback), extract remotely expecting the success sentinel. -/
def upload_directory_body (w : World) (iid ld rd temp : String) (maxRetries : Nat) : M Unit := do
  callTar w temp
  let remoteArchive := rd ++ "/temp_archive.tar.gz"
  tryCatchM (upload_via_curl w iid temp remoteArchive maxRetries)
    (fun _ => upload_file w iid temp remoteArchive maxRetries)
  let res ← callExec w ("cd " ++ rd ++ " && tar -xzf temp_archive.tar.gz && rm temp_archive.tar.gz && echo 'success'") (some 300)
  if ¬ strContains res "success" then
    mThrow ("Failed to extract archive on remote system: " ++ res)
  else pure ()

/-- FileTransfer.upload_directory: directory check, ensure the
connection, create the remote directory, create a temporary archive name;
from there the whole body runs under try/finally, and the finally block
unlinks the temporary archive when it still exists. -/
def upload_directory (w : World) (iid ld rd : String) (maxRetries : Nat) : M Unit := do
  if ¬ w.isDir ld then mThrow ("Local directory not found: " ++ ld)
  else do
    ensure_ssh_access w iid
    let _ ← callExec w ("mkdir -p " ++ rd) .none
    let temp ← callTemp w
    tryFinallyM (upload_directory_body w iid ld rd temp maxRetries)
      (if w.pathExists temp then mEmit (.unlinkLocal temp) else pure ())

/-- The per-file part of FileTransfer.download_directory (lines 642-654):
skip empty fragments, rebuild the relative path locally, create the local
directory structure, download the file. -/
def dlEach (w : World) (iid rd ld : String) (maxRetries : Nat) : List String → M Unit
  | [] => pure ()
  | p :: rest =>
    if p == "" then dlEach w iid rd ld maxRetries rest
    else do
      let lp := joinPath ld (relPathOf p rd)
      mEmit (.makeDirsLocal (dirname lp))
      download_file w iid p lp maxRetries
      dlEach w iid rd ld maxRetries rest

/-- FileTransfer.download_directory: ensure the connection, create the
local directory, list remote files recursively; an output starting with
Error or containing the no-such-file marker raises the fatal not-found
error, otherwise each listed file is downloaded. -/
def download_directory (w : World) (iid rd ld : String) (maxRetries : Nat) : M Unit := do
  ensure_ssh_access w iid
  mEmit (.makeDirsLocal ld)
  let res ← callExec w ("find " ++ rd ++ " -type f | sort") .none
  if strStarts res "Error" || strContains res "No such file or directory" then
    mThrow ("Remote directory not found or empty: " ++ rd)
  else
    dlEach w iid rd ld maxRetries (splitLines (stripStr res))

/-- FileTransfer.list_remote_files: ensure the connection, list remote
files recursively; an output starting with Error or containing the
no-such-file marker yields the empty list, otherwise the non-empty lines
of the stripped output. -/
def list_remote_files (w : World) (iid rp : String) : M (List String) := do
  ensure_ssh_access w iid
  let res ← callExec w ("find " ++ rp ++ " -type f | sort") .none
  if strStarts res "Error" || strContains res "No such file or directory" then
    pure []
  else
    pure ((splitLines (stripStr res)).filter (fun p => ¬ p == ""))

/-- Is the event a local scp invocation? -/
def isScpEv : Event → Bool
  | .runScp _ => true
  | _ => false

/-- Is the event one of the two large-file relay host calls? -/
def isGofileEv : Event → Bool
  | .curlGetServer => true
  | .curlLargeUpload _ => true
  | _ => false

/-- Is the event a small-file relay host push? -/
def isSmallEv : Event → Bool
  | .curlSmallUpload _ => true
  | _ => false

/-- Is the event a backoff sleep? -/
def isSleepEv : Event → Bool
  | .sleep _ => true
  | _ => false

/-- Is the event a remote command execution? -/
def isExecEv : Event → Bool
  | .execRemote _ _ => true
  | _ => false

/-- A trace without backoff sleeps. -/
def sleepFree (tr : List Event) : Prop := ∀ n, Event.sleep n ∉ tr

/-- A loop body as the source builds them: it always terminates normally
(its try/except swallows every exception) and it never sleeps itself. -/
def attemptsOk (body : M Bool) : Prop :=
  ∀ s, ∃ s' tr b, body s = (s', tr, .ok b) ∧ sleepFree tr

/-- No run of the computation ever emits a sleep event. -/
def noSleepM {α : Type} (m : M α) : Prop := ∀ s : St, sleepFree (m s).2.1

/-- The trace shape the backoff policy prescribes: the attempt traces in
order, a sleep of 5 * (k+1) seconds after the attempt with index k
whenever another attempt follows, and no sleep after the last one. -/
def withBackoff : List (List Event) → Nat → List Event
  | [], _ => []
  | [t], _ => t
  | t :: ts, i => t ++ Event.sleep (5 * (i + 1)) :: withBackoff ts (i + 1)

/-- All events of every run of a computation satisfy a predicate. -/
def evPred (P : Event → Prop) {α : Type} (m : M α) : Prop :=
  ∀ s : St, ∀ e ∈ (m s).2.1, P e

/-- The record refuting the no-fall-through reading of the locator spec:
its sshCommand is present, non-empty and contains no user-at-host
fragment, and a flat ip field follows. -/
def fallThroughRecord : List (String × JVal) :=
  [("sshCommand", JVal.str "bash -i"), ("ip", JVal.str "10.0.0.7")]

/-- A record whose ssh level matches the elif guard (a dict) but holds no
usable host, while lower-priority levels would be usable. -/
def sshNoHostRecord : List (String × JVal) :=
  [("ssh", JVal.obj [("port", JVal.num 2222)]),
   ("network", JVal.obj [("ip", JVal.str "5.5.5.5")])]

/-- The gofile directory-service answer used by the concrete scenarios. -/
def gofileServerJson : JVal :=
  .obj [("status", .str "ok"), ("data", .obj [("server", .str "store1")])]

/-- The gofile upload answer used by the concrete scenarios. -/
def gofileUploadJson : JVal :=
  .obj [("status", .str "ok"),
        ("data", .obj [("downloadPage", .str "https://gofile.io/d/abc"),
                       ("fileId", .str "abc"),
                       ("downloadLink", .str "https://store1.gofile.io/download/abc/f.bin")])]

/-- A baseline concrete world: connected session manager, all oracles
succeed, the local file is 10 bytes. -/
def wBase : World where
  envKeyPath := some "/k"
  envKeyPassword := none
  expandUser := id
  pathExists := fun _ => true
  isDir := fun _ => true
  fileSize := fun _ => 10
  statusData := fun _ => .error ()
  connectRes := fun _ _ _ _ => "Successfully connected"
  connStatus := "connected"
  connHost := "1.2.3.4"
  connUser := "ubuntu"
  connPort := 22
  execRemote := fun _ _ _ => .ok "success exists"
  scpRun := fun _ _ => .ok 0
  curlSmall := fun _ _ => .ok "https://transfer.sh/x"
  gofileServer := fun _ => .ok gofileServerJson
  gofileUpload := fun _ _ => .ok gofileUploadJson
  uuidHex := fun t => "u" ++ toString t
  inputUrl := fun _ => ""
  tarRun := fun _ _ => .ok ()
  tempName := fun t => "/tmp/arch" ++ toString t

/-- The concrete 500 MB scenario world. -/
def wGo500 : World := { wBase with fileSize := fun _ => 500 * 1048576 }

/-- The concrete world where every relay push raises and every scp exits
nonzero. -/
def wRelayFail : World :=
  { wBase with curlSmall := fun _ _ => .error "connection reset",
               scpRun := fun _ _ => .ok 1 }

/-- The concrete 3000 MB scenario world with no manual url supplied. -/
def wHuge3000 : World := { wBase with fileSize := fun _ => 3000 * 1048576 }

/-- The concrete world whose remote command output never contains a
sentinel. -/
def wAbsent : World := { wBase with execRemote := fun _ _ _ => .ok "nope" }

/-- The concrete world whose remote listing reports an error. -/
def wErrList : World :=
  { wBase with execRemote := fun _ _ _ => .ok "Error: connection lost" }

theorem M_bind_eq {α β : Type} (x : M α) (f : α → M β) : x >>= f = mBind x f := rfl

theorem M_pure_eq {α : Type} (a : α) : (pure a : M α) = mPure a := rfl

theorem callExec_eval (w : World) (cmd : String) (tmo : Option Nat) (s : St) :
    callExec w cmd tmo s =
      ({ s with time := s.time + 1 }, [.execRemote cmd tmo], w.execRemote s.time cmd tmo) := rfl

theorem callScp_eval (w : World) (args : List String) (s : St) :
    callScp w args s =
      ({ s with time := s.time + 1 }, [.runScp args], w.scpRun s.time args) := rfl

theorem callCurlSmall_eval (w : World) (url : String) (s : St) :
    callCurlSmall w url s =
      ({ s with time := s.time + 1 }, [.curlSmallUpload url], w.curlSmall s.time url) := rfl

theorem callGofileServer_eval (w : World) (s : St) :
    callGofileServer w s =
      ({ s with time := s.time + 1 }, [.curlGetServer], w.gofileServer s.time) := rfl

theorem callGofileUpload_eval (w : World) (server : String) (s : St) :
    callGofileUpload w server s =
      ({ s with time := s.time + 1 }, [.curlLargeUpload server], w.gofileUpload s.time server) := rfl

theorem callUuid_eval (w : World) (s : St) :
    callUuid w s = ({ s with time := s.time + 1 }, [], .ok (w.uuidHex s.time)) := rfl

theorem callInput_eval (w : World) (s : St) :
    callInput w s = ({ s with time := s.time + 1 }, [.promptUrl], .ok (w.inputUrl s.time)) := rfl

theorem callTar_eval (w : World) (archive : String) (s : St) :
    callTar w archive s =
      ({ s with time := s.time + 1 }, [.runTar archive], w.tarRun s.time archive) := rfl

theorem callTemp_eval (w : World) (s : St) :
    callTemp w s =
      ({ s with time := s.time + 1 }, [.makeTemp (w.tempName s.time)], .ok (w.tempName s.time)) := rfl

/-- ensure_ssh_access is the identity on an already-connected state. -/
theorem ensure_connected_eval (w : World) (iid : String) (s : St) (h : s.connected = true) :
    ensure_ssh_access w iid s = (s, [], .ok ()) := by
  simp [ensure_ssh_access, M_bind_eq, M_pure_eq, mBind, mGet, mPure, h]

/-- get_ssh_info on a connected state whose manager reports status
connected uses the manager's connection info and performs no calls. -/
theorem get_ssh_info_connected_eval (w : World) (iid : String) (s : St)
    (h : s.connected = true) (hst : w.connStatus = "connected") :
    get_ssh_info w iid s = (s, [], .ok ⟨.str w.connHost, w.connUser, w.connPort⟩) := by
  simp [get_ssh_info, M_bind_eq, M_pure_eq, mBind, mGet, mPure, h, hst]

theorem jGet_removeField_ne (fs : List (String × JVal)) (k key : String) (h : ¬ key = k) :
    jGet (removeField fs k) key = jGet fs key := by
  induction fs with
  | nil => rfl
  | cons kv rest ih =>
    obtain ⟨k', v⟩ := kv
    by_cases hk : k' = k
    · have hkk : ¬ (k' = key) := fun hh => h (hk ▸ hh.symm ▸ rfl)
      rw [removeField, if_pos hk, ih, jGet, if_neg hkk]
    · by_cases hkey : k' = key
      · rw [removeField, if_neg hk, jGet, if_pos hkey, jGet, if_pos hkey]
      · rw [removeField, if_neg hk, jGet, if_neg hkey, ih, jGet, if_neg hkey]

theorem jGet_removeField_self (fs : List (String × JVal)) (k : String) :
    jGet (removeField fs k) k = none := by
  induction fs with
  | nil => rfl
  | cons kv rest ih =>
    obtain ⟨k', v⟩ := kv
    by_cases hk : k' = k
    · rw [removeField, if_pos hk, ih]
    · rw [removeField, if_neg hk, jGet, if_neg hk, ih]

theorem resolveFlat_removeSsh (fs : List (String × JVal)) :
    resolveFlat (removeField fs "sshCommand") = resolveFlat fs := by
  unfold resolveFlat truthyField
  rw [jGet_removeField_ne fs "sshCommand" "ip" (by decide),
      jGet_removeField_ne fs "sshCommand" "ipAddress" (by decide),
      jGet_removeField_ne fs "sshCommand" "ssh" (by decide),
      jGet_removeField_ne fs "sshCommand" "network" (by decide),
      jGet_removeField_ne fs "sshCommand" "status" (by decide),
      jGet_removeField_ne fs "sshCommand" "instance" (by decide)]

/-- C1, counterexample: the record whose sshCommand is present, non-empty
and contains no user-at-host fragment does not make resolution report
not-found; resolution falls through to the flat ip field and succeeds,
contradicting the claim that a present-but-unusable priority level stops
the search. -/
theorem c1_no_fallthrough_counterexample :
    resolveInstanceIp fallThroughRecord = .ok (some (.str "10.0.0.7", 22)) ∧
    resolveInstanceIp fallThroughRecord ≠ .ok none := by
  constructor
  · rfl
  · intro h
    rw [show resolveInstanceIp fallThroughRecord = .ok (some (.str "10.0.0.7", 22)) from rfl] at h
    exact Option.noConfusion (Except.ok.inj h)

/-- C1 (amended): resolution tries the priority levels in the stated fixed
order with first success winning.  A usable sshCommand (non-empty, with a
user-at-host fragment) returns its parsed host and port immediately; a
present but unusable sshCommand does not stop the search: resolution
proceeds exactly as if the field were absent.  Within the lower-priority
elif chain, once a level's guard matches but yields no usable host (shown
for the nested ssh and network levels), the search does not fall through
to lower-priority fields and reports not-found. -/
theorem c1_locator_priority_amended :
    (∀ (fs : List (String × JVal)) (cmd : String) (hp : String × Int),
       jGet fs "sshCommand" = some (.str cmd) → ¬ cmd = "" → parsedSshCmd cmd = some hp →
       resolveInstanceIp fs = .ok (some (.str hp.1, hp.2)))
  ∧ (∀ (fs : List (String × JVal)) (cmd : String),
       jGet fs "sshCommand" = some (.str cmd) → searchAtHost cmd.toList = none →
       resolveInstanceIp fs = resolveInstanceIp (removeField fs "sshCommand"))
  ∧ (∀ (fs d : List (String × JVal)),
       truthyField fs "ip" = none → truthyField fs "ipAddress" = none →
       jGet fs "ssh" = some (.obj d) → truthyField d "host" = none →
       resolveFlat fs = .ok none)
  ∧ (∀ (fs nd : List (String × JVal)),
       truthyField fs "ip" = none → truthyField fs "ipAddress" = none →
       (∀ d, ¬ jGet fs "ssh" = some (.obj d)) →
       jGet fs "network" = some (.obj nd) → truthyField nd "ip" = none →
       resolveFlat fs = .ok none) := by
  refine ⟨?_, ?_, ?_, ?_⟩
  · intro fs cmd hp hget hne hparse
    simp [resolveInstanceIp, truthyField, hget, pyTruthy, hne, hparse]
  · intro fs cmd hget hhost
    have hhost' : searchAtHost cmd.data = none := hhost
    have hrhs : resolveInstanceIp (removeField fs "sshCommand") = resolveFlat fs := by
      simp [resolveInstanceIp, truthyField, jGet_removeField_self fs "sshCommand",
            resolveFlat_removeSsh fs]
    rw [hrhs]
    by_cases hc : cmd = ""
    · subst hc
      simp [resolveInstanceIp, truthyField, hget, pyTruthy]
    · simp [resolveInstanceIp, truthyField, hget, pyTruthy, hc, parsedSshCmd, hhost']
  · intro fs d h1 h2 hssh hhost
    simp [resolveFlat, h1, h2, hssh, hhost]
  · intro fs nd h1 h2 hs hnet hnip
    simp only [resolveFlat, h1, h2]
    cases hssh : jGet fs "ssh" with
    | none => simp [hnet, hnip]
    | some v => cases v <;> first | exact absurd hssh (hs _) | simp [hnet, hnip]

/-- C1 witness: the amended no-fall-through statement applied to the
record whose ssh level is a dict without a usable host while a network ip
follows. -/
theorem c1_locator_priority_amended_witness :
    resolveFlat sshNoHostRecord = .ok none :=
  c1_locator_priority_amended.2.2.1 sshNoHostRecord [("port", JVal.num 2222)] rfl rfl rfl rfl

/-- C8: an sshCommand with a user-at-host fragment whose port fragment
does not match the numeric pattern resolves to that host with the default
port 22 and raises nothing. -/
theorem c8_malformed_port_defaults (fs : List (String × JVal)) (cmd hst : String)
    (hget : jGet fs "sshCommand" = some (.str cmd)) (hne : ¬ cmd = "")
    (hhost : searchAtHost cmd.toList = some hst) (hport : searchPortFrag cmd.toList = none) :
    resolveInstanceIp fs = .ok (some (.str hst, 22)) := by
  have hhost' : searchAtHost cmd.data = some hst := hhost
  have hport' : searchPortFrag cmd.data = none := hport
  simp [resolveInstanceIp, truthyField, hget, pyTruthy, hne, parsedSshCmd, hhost', hport']

/-- C8 witness: the concrete command with the non-numeric port fragment. -/
theorem c8_malformed_port_defaults_witness :
    resolveInstanceIp [("sshCommand", JVal.str "ssh ubuntu@1.2.3.4 -p abc")] =
      .ok (some (.str "1.2.3.4", 22)) :=
  c8_malformed_port_defaults _ "ssh ubuntu@1.2.3.4 -p abc" "1.2.3.4" rfl (by decide) rfl rfl

/-- C9: when the session manager already reports a live connection,
ensure-access returns immediately: the state is unchanged and no event at
all (no environment read, no endpoint resolution, no handshake) is
produced. -/
theorem c9_ensure_idempotent (w : World) (iid : String) (s : St) (h : s.connected = true) :
    ensure_ssh_access w iid s = (s, [], .ok ()) :=
  ensure_connected_eval w iid s h

/-- C9 witness: a concrete connected state. -/
theorem c9_ensure_idempotent_witness :
    ensure_ssh_access wBase "inst" ⟨true, 5⟩ = (⟨true, 5⟩, [], .ok ()) :=
  c9_ensure_idempotent wBase "inst" ⟨true, 5⟩ rfl

/-- C5: a download whose up-front remote existence check lacks the exists
sentinel raises the not-found error, the trace being exactly the local
directory creation, the environment read and the verification command;
in particular no scp invocation ever occurs. -/
theorem c5_absent_blocks_copy (w : World) (iid rp lp kp : String) (n : Nat) (s : St) (out : String)
    (hconn : s.connected = true) (hst : w.connStatus = "connected")
    (hkp : w.envKeyPath = some kp)
    (hvr : w.execRemote s.time ("test -f " ++ rp ++ " && echo 'exists'") .none = .ok out)
    (hno : strContains out "exists" = false) :
    download_file w iid rp lp n s =
      ({ s with time := s.time + 1 },
       [Event.makeDirsLocal (dirname lp), Event.readEnv "SSH_PRIVATE_KEY_PATH",
        Event.execRemote ("test -f " ++ rp ++ " && echo 'exists'") .none],
       .error ("Remote file not found: " ++ rp))
    ∧ ∀ args, Event.runScp args ∉
        ([Event.makeDirsLocal (dirname lp), Event.readEnv "SSH_PRIVATE_KEY_PATH",
          Event.execRemote ("test -f " ++ rp ++ " && echo 'exists'") .none] : List Event) := by
  constructor
  · simp [download_file, ensure_connected_eval w iid s hconn,
          get_ssh_info_connected_eval w iid s hconn hst,
          M_bind_eq, M_pure_eq, mBind, mPure, mEmit, mThrow, liftExc,
          callExec_eval, hkp, hvr, hno]
  · intro args
    simp

/-- C5 witness: the concrete world whose remote commands answer without
the sentinel. -/
theorem c5_absent_blocks_copy_witness :
    download_file wAbsent "i" "/r/f" "/l/f" 3 ⟨true, 0⟩ =
      (⟨true, 1⟩,
       [Event.makeDirsLocal "/l", Event.readEnv "SSH_PRIVATE_KEY_PATH",
        Event.execRemote "test -f /r/f && echo 'exists'" .none],
       .error "Remote file not found: /r/f") :=
  (c5_absent_blocks_copy wAbsent "i" "/r/f" "/l/f" "/k" 3 ⟨true, 0⟩ "nope"
    rfl rfl rfl rfl (by decide)).1

/-- C10: on a listing output starting with Error or containing the
no-such-file marker, list_remote_files returns the empty list without
raising, while download_directory raises the fatal not-found error on the
same outcome. -/
theorem c10_listing_contrast (w : World) (iid p ld : String) (n : Nat) (s : St) (out : String)
    (hconn : s.connected = true)
    (hfind : w.execRemote s.time ("find " ++ p ++ " -type f | sort") .none = .ok out)
    (hbad : strStarts out "Error" = true ∨ strContains out "No such file or directory" = true) :
    list_remote_files w iid p s =
      ({ s with time := s.time + 1 },
       [Event.execRemote ("find " ++ p ++ " -type f | sort") .none], .ok [])
    ∧ download_directory w iid p ld n s =
      ({ s with time := s.time + 1 },
       [Event.makeDirsLocal ld, Event.execRemote ("find " ++ p ++ " -type f | sort") .none],
       .error ("Remote directory not found or empty: " ++ p)) := by
  constructor
  · rcases hbad with h | h <;>
      simp [list_remote_files, ensure_connected_eval w iid s hconn,
            M_bind_eq, M_pure_eq, mBind, mPure, mEmit, liftExc, callExec_eval, hfind, h]
  · rcases hbad with h | h <;>
      simp [download_directory, ensure_connected_eval w iid s hconn,
            M_bind_eq, M_pure_eq, mBind, mPure, mEmit, mThrow, liftExc, callExec_eval, hfind, h]

/-- C10 witness: the concrete world whose listing answers with an Error
prefix. -/
theorem c10_listing_contrast_witness :
    list_remote_files wErrList "i" "/d" ⟨true, 0⟩ =
      (⟨true, 1⟩, [Event.execRemote "find /d -type f | sort" .none], .ok [])
    ∧ download_directory wErrList "i" "/d" "/l" 2 ⟨true, 0⟩ =
      (⟨true, 1⟩,
       [Event.makeDirsLocal "/l", Event.execRemote "find /d -type f | sort" .none],
       .error "Remote directory not found or empty: /d") :=
  c10_listing_contrast wErrList "i" "/d" "/l" 2 ⟨true, 0⟩ "Error: connection lost"
    rfl rfl (Or.inl (by decide))

/-- C4: at 2000 MB and above, a run with an empty manual url answer
raises the fatal large-file error with the prompt as its only event, so
no remote fetch is ever issued; with a non-empty answer the trace starts
with the prompt followed by the remote fetch of that url with the long
1800-second timeout. -/
theorem c4_huge_tier :
    (∀ (w : World) (iid lp rp : String) (n : Nat) (s : St),
       w.pathExists lp = true → 2000 * 1048576 ≤ w.fileSize lp →
       w.inputUrl s.time = "" →
       upload_via_curl w iid lp rp n s =
         ({ s with time := s.time + 1 }, [Event.promptUrl], .error hugeFailMsg))
  ∧ (∀ (w : World) (iid lp rp : String) (n : Nat) (s : St),
       w.pathExists lp = true → 2000 * 1048576 ≤ w.fileSize lp →
       ¬ w.inputUrl s.time = "" →
       ∃ tr', (upload_via_curl w iid lp rp n s).2.1 =
         Event.promptUrl ::
           Event.execRemote ("curl -s -L '" ++ w.inputUrl s.time ++ "' -o '" ++ rp ++ "' && echo 'success'")
             (some 1800) :: tr') := by
  constructor
  · intro w iid lp rp n s hex hsz hurl
    have h1 : ¬ w.fileSize lp < 25 * 1048576 := by omega
    have h2 : ¬ w.fileSize lp < 2000 * 1048576 := by omega
    simp [upload_via_curl, hex, h1, h2, callInput_eval, M_bind_eq, M_pure_eq,
          mBind, mPure, mThrow, hurl]
  · intro w iid lp rp n s hex hsz hurl
    have h1 : ¬ w.fileSize lp < 25 * 1048576 := by omega
    have h2 : ¬ w.fileSize lp < 2000 * 1048576 := by omega
    cases he1 : w.execRemote (s.time + 1)
        ("curl -s -L '" ++ w.inputUrl s.time ++ "' -o '" ++ rp ++ "' && echo 'success'") (some 1800) with
    | error e1 =>
      refine ⟨[], ?_⟩
      simp [upload_via_curl, hex, h1, h2, callInput_eval, callExec_eval, tryCatchM,
            M_bind_eq, M_pure_eq, mBind, mPure, mThrow, liftExc, hurl, he1]
    | ok r1 =>
      by_cases hs1 : strContains r1 "success" = true
      · cases he2 : w.execRemote (s.time + 2) ("test -s '" ++ rp ++ "' && echo 'exists'") .none with
        | error e2 =>
          refine ⟨[Event.execRemote ("test -s '" ++ rp ++ "' && echo 'exists'") .none], ?_⟩
          simp [upload_via_curl, hex, h1, h2, callInput_eval, callExec_eval, tryCatchM,
                M_bind_eq, M_pure_eq, mBind, mPure, mThrow, liftExc, hurl, he1, hs1, he2]
        | ok r2 =>
          by_cases hs2 : strContains r2 "exists" = true
          · refine ⟨[Event.execRemote ("test -s '" ++ rp ++ "' && echo 'exists'") .none], ?_⟩
            simp [upload_via_curl, hex, h1, h2, callInput_eval, callExec_eval, tryCatchM,
                  M_bind_eq, M_pure_eq, mBind, mPure, mThrow, liftExc, hurl, he1, hs1, he2, hs2]
          · refine ⟨[Event.execRemote ("test -s '" ++ rp ++ "' && echo 'exists'") .none], ?_⟩
            simp [upload_via_curl, hex, h1, h2, callInput_eval, callExec_eval, tryCatchM,
                  M_bind_eq, M_pure_eq, mBind, mPure, mThrow, liftExc, hurl, he1, hs1, he2, hs2]
      · refine ⟨[], ?_⟩
        simp [upload_via_curl, hex, h1, h2, callInput_eval, callExec_eval, tryCatchM,
              M_bind_eq, M_pure_eq, mBind, mPure, mThrow, liftExc, hurl, he1, hs1]

/-- C4 witness: the concrete 3000 MB world with no manual url. -/
theorem c4_huge_tier_witness :
    upload_via_curl wHuge3000 "i" "/l/big.bin" "/r/big.bin" 3 ⟨true, 0⟩ =
      (⟨true, 1⟩, [Event.promptUrl], .error hugeFailMsg) :=
  c4_huge_tier.1 wHuge3000 "i" "/l/big.bin" "/r/big.bin" 3 ⟨true, 0⟩ rfl (by decide) rfl

theorem tryFinallyM_unlink_parts {α : Type} (m : M α) (p : String) (s : St) :
    ∃ s' tr r, tryFinallyM m (mEmit (.unlinkLocal p)) s = (s', tr ++ [Event.unlinkLocal p], r) := by
  rcases hm : m s with ⟨s', tr, r⟩
  exact ⟨s', tr, r, by simp [tryFinallyM, hm, mEmit]⟩

/-- C7: once upload_directory gets past the preliminary steps that
precede the creation of the temporary archive (the directory check, the
already-connected session, the remote mkdir), its trace ends with the
unlink of the temporary archive, whatever the oracles make the archiving,
the transfer and the extraction do and whether the call returns or
raises. -/
theorem c7_archive_cleanup (w : World) (iid ld rd : String) (n : Nat) (s : St) (o : String)
    (hdir : w.isDir ld = true) (hconn : s.connected = true)
    (hmk : w.execRemote s.time ("mkdir -p " ++ rd) .none = .ok o)
    (htmp : w.pathExists (w.tempName (s.time + 1)) = true) :
    ∃ s' tr r, upload_directory w iid ld rd n s =
      (s', tr ++ [Event.unlinkLocal (w.tempName (s.time + 1))], r) := by
  obtain ⟨s', tr, r, htf⟩ :=
    tryFinallyM_unlink_parts (upload_directory_body w iid ld rd (w.tempName (s.time + 1)) n)
      (w.tempName (s.time + 1)) { s with time := s.time + 2 }
  refine ⟨s', Event.execRemote ("mkdir -p " ++ rd) .none ::
              Event.makeTemp (w.tempName (s.time + 1)) :: tr, r, ?_⟩
  simp [upload_directory, hdir, ensure_connected_eval w iid s hconn, callExec_eval,
        callTemp_eval, M_bind_eq, M_pure_eq, mBind, mPure, mEmit, liftExc, hmk, htmp, htf]

/-- C7 witness: the concrete baseline world. -/
theorem c7_archive_cleanup_witness :
    ∃ s' tr r, upload_directory wBase "i" "/l/dir" "/r/dir" 2 ⟨true, 0⟩ =
      (s', tr ++ [Event.unlinkLocal "/tmp/arch1"], r) :=
  c7_archive_cleanup wBase "i" "/l/dir" "/r/dir" 2 ⟨true, 0⟩ "success exists" rfl rfl rfl rfl

theorem mBind_eval_ok {α β : Type} {x : M α} {s s' : St} {tr : List Event} {a : α}
    (hx : x s = (s', tr, .ok a)) (f : α → M β) :
    (x >>= f) s = ((f a s').1, tr ++ (f a s').2.1, (f a s').2.2) := by
  rw [M_bind_eq]
  unfold mBind
  rw [hx]

theorem mBind_eval_err {α β : Type} {x : M α} {s s' : St} {tr : List Event} {e : String}
    (hx : x s = (s', tr, .error e)) (f : α → M β) :
    (x >>= f) s = (s', tr, .error e) := by
  rw [M_bind_eq]
  unfold mBind
  rw [hx]

theorem tryCatchM_eval_ok {α : Type} {m : M α} {s s' : St} {tr : List Event} {a : α}
    (hm : m s = (s', tr, .ok a)) (h : String → M α) :
    tryCatchM m h s = (s', tr, .ok a) := by
  unfold tryCatchM
  rw [hm]

theorem tryCatchM_eval_err {α : Type} {m : M α} {s s' : St} {tr : List Event} {e : String}
    (hm : m s = (s', tr, .error e)) (h : String → M α) :
    tryCatchM m h s = ((h e s').1, tr ++ (h e s').2.1, (h e s').2.2) := by
  unfold tryCatchM
  rw [hm]

theorem noSleepM_bind {α β : Type} {x : M α} {f : α → M β}
    (hx : noSleepM x) (hf : ∀ a, noSleepM (f a)) : noSleepM (x >>= f) := by
  intro s n hmem
  rcases hxs : x s with ⟨s', tr, r⟩
  cases r with
  | ok a =>
    rcases hfa : f a s' with ⟨s'', tr', r'⟩
    rw [mBind_eval_ok hxs, hfa] at hmem
    simp only [List.mem_append] at hmem
    rcases hmem with h | h
    · exact hx s n (by rw [hxs]; exact h)
    · exact hf a s' n (by rw [hfa]; exact h)
  | error e =>
    rw [mBind_eval_err hxs] at hmem
    exact hx s n (by rw [hxs]; exact hmem)

theorem noSleepM_pure {α : Type} (a : α) : noSleepM (pure a : M α) := by
  intro s n h
  simp [M_pure_eq, mPure] at h

theorem noSleepM_mThrow {α : Type} (msg : String) : noSleepM (mThrow msg : M α) := by
  intro s n h
  simp [mThrow] at h

theorem noSleepM_liftExc {α : Type} (x : Except String α) : noSleepM (liftExc x) := by
  intro s n h
  simp [liftExc] at h

theorem noSleepM_ite {α : Type} {c : Prop} [Decidable c] {m1 m2 : M α}
    (h1 : noSleepM m1) (h2 : noSleepM m2) : noSleepM (if c then m1 else m2) := by
  by_cases h : c
  · simpa [h] using h1
  · simpa [h] using h2

theorem noSleepM_tryCatchM {α : Type} {m : M α} {h : String → M α}
    (hm : noSleepM m) (hh : ∀ e, noSleepM (h e)) : noSleepM (tryCatchM m h) := by
  intro s n hmem
  rcases hms : m s with ⟨s', tr, r⟩
  cases r with
  | ok a =>
    rw [tryCatchM_eval_ok hms] at hmem
    exact hm s n (by rw [hms]; exact hmem)
  | error e =>
    rcases hhs : h e s' with ⟨s'', tr', r'⟩
    rw [tryCatchM_eval_err hms, hhs] at hmem
    simp only [List.mem_append] at hmem
    rcases hmem with hmem | hmem
    · exact hm s n (by rw [hms]; exact hmem)
    · exact hh e s' n (by rw [hhs]; exact hmem)

theorem noSleepM_callExec (w : World) (cmd : String) (tmo : Option Nat) :
    noSleepM (callExec w cmd tmo) := by
  intro s n h
  simp [callExec_eval] at h

theorem noSleepM_callScp (w : World) (args : List String) : noSleepM (callScp w args) := by
  intro s n h
  simp [callScp_eval] at h

theorem noSleepM_callCurlSmall (w : World) (url : String) : noSleepM (callCurlSmall w url) := by
  intro s n h
  simp [callCurlSmall_eval] at h

theorem noSleepM_callGofileServer (w : World) : noSleepM (callGofileServer w) := by
  intro s n h
  simp [callGofileServer_eval] at h

theorem noSleepM_callGofileUpload (w : World) (server : String) :
    noSleepM (callGofileUpload w server) := by
  intro s n h
  simp [callGofileUpload_eval] at h

theorem noSleepM_callUuid (w : World) : noSleepM (callUuid w) := by
  intro s n h
  simp [callUuid_eval] at h

theorem noSleepM_dictStatusOk (v : JVal) : noSleepM (dictStatusOk v) := by
  cases v <;> first | exact noSleepM_mThrow _ | exact noSleepM_pure _

theorem tryCatch_pure_false_ok {m : M Bool} (hm : noSleepM m) :
    attemptsOk (tryCatchM m (fun _ => pure false)) := by
  intro s
  rcases hms : m s with ⟨s', tr, r⟩
  have hsf : sleepFree tr := fun n h => hm s n (by rw [hms]; exact h)
  cases r with
  | ok b => exact ⟨s', tr, b, by simp [tryCatchM, hms], hsf⟩
  | error e =>
    refine ⟨s', tr, false, ?_, hsf⟩
    simp [tryCatchM, hms, M_pure_eq, mPure]

theorem scpUploadBody_attemptsOk (w : World) (args : List String) (rp : String) :
    attemptsOk (scpUploadBody w args rp) := by
  unfold scpUploadBody
  apply tryCatch_pure_false_ok
  apply noSleepM_bind (noSleepM_callScp w args)
  intro rc
  apply noSleepM_ite
  · apply noSleepM_bind (noSleepM_callExec w _ _)
    intro vr
    exact noSleepM_ite (noSleepM_pure true) (noSleepM_pure false)
  · exact noSleepM_pure false

theorem scpDownloadBody_attemptsOk (w : World) (args : List String) (lp : String) :
    attemptsOk (scpDownloadBody w args lp) := by
  unfold scpDownloadBody
  apply tryCatch_pure_false_ok
  apply noSleepM_bind (noSleepM_callScp w args)
  intro rc
  exact noSleepM_ite (noSleepM_ite (noSleepM_pure true) (noSleepM_pure false)) (noSleepM_pure false)

theorem smallBody_attemptsOk (w : World) (lp rp : String) : attemptsOk (smallBody w lp rp) := by
  unfold smallBody
  apply tryCatch_pure_false_ok
  unfold smallAttempt
  apply noSleepM_bind (noSleepM_callUuid w)
  intro u
  apply noSleepM_bind (noSleepM_callCurlSmall w _)
  intro outS
  apply noSleepM_bind (noSleepM_callExec w _ _)
  intro res
  apply noSleepM_ite
  · apply noSleepM_bind (noSleepM_callExec w _ _)
    intro vr
    exact noSleepM_ite (noSleepM_pure true) (noSleepM_pure false)
  · exact noSleepM_pure false

theorem largeBody_attemptsOk (w : World) (lp rp : String) : attemptsOk (largeBody w lp rp) := by
  unfold largeBody
  apply tryCatch_pure_false_ok
  unfold largeAttempt
  apply noSleepM_bind (noSleepM_callGofileServer w)
  intro sd
  apply noSleepM_bind (noSleepM_dictStatusOk sd)
  intro statusOk
  apply noSleepM_ite
  · exact noSleepM_mThrow _
  · apply noSleepM_bind (noSleepM_liftExc _)
    intro dataV
    apply noSleepM_bind (noSleepM_liftExc _)
    intro serverV
    apply noSleepM_bind (noSleepM_callGofileUpload w _)
    intro ur
    apply noSleepM_bind (noSleepM_dictStatusOk ur)
    intro upOk
    apply noSleepM_ite
    · apply noSleepM_bind (noSleepM_liftExc _)
      intro udata
      apply noSleepM_bind (noSleepM_liftExc _)
      intro dp
      apply noSleepM_bind (noSleepM_liftExc _)
      intro fid
      apply noSleepM_bind (noSleepM_liftExc _)
      intro directLink
      apply noSleepM_bind (noSleepM_callExec w _ _)
      intro res
      apply noSleepM_ite
      · apply noSleepM_bind (noSleepM_callExec w _ _)
        intro vr
        exact noSleepM_ite (noSleepM_pure true) (noSleepM_pure false)
      · exact noSleepM_pure false
    · exact noSleepM_pure false

theorem withBackoff_cons (t : List Event) (ts : List (List Event)) (i : Nat) (h : ts ≠ []) :
    withBackoff (t :: ts) i = t ++ Event.sleep (5 * (i + 1)) :: withBackoff ts (i + 1) := by
  cases ts with
  | nil => exact absurd rfl h
  | cons t2 ts2 => rfl

theorem retryAttempts_backoff (body : M Bool) (hb : attemptsOk body) :
    ∀ (rem i : Nat) (s : St), ∃ (ts : List (List Event)) (s' : St) (b : Bool),
      retryAttempts body rem i s = (s', withBackoff ts i, .ok b) ∧
      ts.length ≤ rem ∧ (∀ t ∈ ts, sleepFree t) ∧
      (b = false → ts.length = rem) ∧ (1 ≤ rem → ts ≠ []) := by
  intro rem
  induction rem with
  | zero =>
    intro i s
    exact ⟨[], s, false, rfl, by simp, by simp, fun _ => rfl, by omega⟩
  | succ rem ih =>
    intro i s
    obtain ⟨s1, t1, b1, hbody, hsf⟩ := hb s
    cases b1 with
    | true =>
      refine ⟨[t1], s1, true, ?_, by simp, by simpa using hsf, by simp, fun _ => by simp⟩
      show (retryAttempts body (rem + 1) i) s = _
      rw [retryAttempts, mBind_eval_ok hbody]
      simp [M_pure_eq, mPure, withBackoff]
    | false =>
      cases rem with
      | zero =>
        refine ⟨[t1], s1, false, ?_, by simp, by simpa using hsf, fun _ => by simp, fun _ => by simp⟩
        show (retryAttempts body 1 i) s = _
        rw [retryAttempts, mBind_eval_ok hbody]
        simp [M_pure_eq, mPure, withBackoff]
      | succ rem2 =>
        obtain ⟨ts, s', b, hrec, hlen, hts, hfalse, hne⟩ := ih (i + 1) s1
        refine ⟨t1 :: ts, s', b, ?_, by simpa using hlen, ?_, ?_, fun _ => by simp⟩
        · show (retryAttempts body (rem2 + 1 + 1) i) s = _
          rw [retryAttempts, mBind_eval_ok hbody]
          rw [withBackoff_cons t1 ts i (hne (by omega))]
          simp [M_bind_eq, M_pure_eq, mBind, mPure, mEmit, hrec]
        · intro t ht
          rcases List.mem_cons.mp ht with h | h
          · exact h ▸ hsf
          · exact hts t h
        · intro hbf
          simp [hfalse hbf]

/-- C6: for every retry loop of the source — all four (direct upload,
direct download, both relay tiers) instantiate retryAttempts, and the
last four conjuncts show their bodies qualify — the produced trace is the
attempts in order with a sleep of exactly 5 * (k - 1) seconds before the
1-indexed attempt k for k at least 2, and no sleep after the final
attempt (the withBackoff shape); an exhausted loop has run exactly
max_retries attempts. -/
theorem c6_linear_backoff :
    (∀ (body : M Bool) (n : Nat) (s : St), attemptsOk body →
       ∃ (ts : List (List Event)) (s' : St) (b : Bool),
         retryAttempts body n 0 s = (s', withBackoff ts 0, .ok b) ∧
         ts.length ≤ n ∧ (∀ t ∈ ts, sleepFree t) ∧ (b = false → ts.length = n))
  ∧ (∀ (w : World) (args : List String) (rp : String), attemptsOk (scpUploadBody w args rp))
  ∧ (∀ (w : World) (args : List String) (lp : String), attemptsOk (scpDownloadBody w args lp))
  ∧ (∀ (w : World) (lp rp : String), attemptsOk (smallBody w lp rp))
  ∧ (∀ (w : World) (lp rp : String), attemptsOk (largeBody w lp rp)) := by
  refine ⟨?_, scpUploadBody_attemptsOk, scpDownloadBody_attemptsOk,
          smallBody_attemptsOk, largeBody_attemptsOk⟩
  intro body n s hb
  obtain ⟨ts, s', b, h1, h2, h3, h4, _⟩ := retryAttempts_backoff body hb n 0 s
  exact ⟨ts, s', b, h1, h2, h3, h4⟩

/-- C6 witness: the generic backoff shape applied to the direct-upload
body in the concrete world whose scp always exits nonzero. -/
theorem c6_linear_backoff_witness :
    ∃ (ts : List (List Event)) (s' : St) (b : Bool),
      retryAttempts (scpUploadBody wRelayFail ["scp"] "/r/f") 3 0 ⟨true, 0⟩ =
        (s', withBackoff ts 0, .ok b) ∧
      ts.length ≤ 3 ∧ (∀ t ∈ ts, sleepFree t) ∧ (b = false → ts.length = 3) :=
  c6_linear_backoff.1 (scpUploadBody wRelayFail ["scp"] "/r/f") 3 ⟨true, 0⟩
    (scpUploadBody_attemptsOk wRelayFail ["scp"] "/r/f")

theorem retryAttempts_count (body : M Bool) (P : Event → Bool) (c : Nat)
    (hb : ∀ s : St, ∃ s' tr, body s = (s', tr, .ok false) ∧ tr.countP P = c ∧
            s'.connected = s.connected)
    (hP : ∀ n, P (Event.sleep n) = false) :
    ∀ (rem i : Nat) (s : St), ∃ s' tr, retryAttempts body rem i s = (s', tr, .ok false) ∧
      tr.countP P = rem * c ∧ s'.connected = s.connected := by
  intro rem
  induction rem with
  | zero =>
    intro i s
    exact ⟨s, [], rfl, by simp, rfl⟩
  | succ rem ih =>
    intro i s
    obtain ⟨s1, t1, hbody, hcnt, hcn⟩ := hb s
    cases rem with
    | zero =>
      refine ⟨s1, t1, ?_, by simpa using hcnt, hcn⟩
      show retryAttempts body 1 i s = _
      rw [retryAttempts, mBind_eval_ok hbody]
      simp [M_pure_eq, mPure]
    | succ rem2 =>
      obtain ⟨s', tr, hrec, hcnt2, hcn2⟩ := ih (i + 1) s1
      refine ⟨s', t1 ++ Event.sleep (5 * (i + 1)) :: tr, ?_, ?_, hcn2.trans hcn⟩
      · show retryAttempts body (rem2 + 1 + 1) i s = _
        rw [retryAttempts, mBind_eval_ok hbody]
        simp [M_bind_eq, M_pure_eq, mBind, mPure, mEmit, hrec]
      · simp [List.countP_append, List.countP_cons, hcnt, hcnt2, hP]
        ring

theorem smallBody_curlFail (w : World) (lp rp : String)
    (hc : ∀ t u, ∃ e, w.curlSmall t u = .error e) :
    ∀ s : St, ∃ s' tr, smallBody w lp rp s = (s', tr, .ok false) ∧ tr.countP isScpEv = 0 ∧
      s'.connected = s.connected := by
  intro s
  obtain ⟨e, he⟩ := hc (s.time + 1) ("https://transfer.sh/" ++ (w.uuidHex s.time ++ "_" ++ basename lp))
  refine ⟨{ s with time := s.time + 2 },
          [Event.curlSmallUpload ("https://transfer.sh/" ++ (w.uuidHex s.time ++ "_" ++ basename lp))],
          ?_, by simp [isScpEv], rfl⟩
  simp only [smallBody, smallAttempt, tryCatchM, M_bind_eq, M_pure_eq, mBind, mPure,
             callUuid_eval, callCurlSmall_eval, liftExc]
  rw [he]
  simp

theorem scpUploadBody_scpFail (w : World) (args : List String) (rp : String)
    (hs : ∀ t a, ∃ rc : Int, w.scpRun t a = .ok rc ∧ ¬ rc = 0) :
    ∀ s : St, ∃ s' tr, scpUploadBody w args rp s = (s', tr, .ok false) ∧
      tr.countP isScpEv = 1 ∧ s'.connected = s.connected := by
  intro s
  obtain ⟨rc, hrc, hne⟩ := hs s.time args
  refine ⟨{ s with time := s.time + 1 }, [Event.runScp args], ?_, by simp [isScpEv], rfl⟩
  simp [scpUploadBody, tryCatchM, M_bind_eq, M_pure_eq, mBind, mPure, callScp_eval,
        liftExc, hrc, hne]

theorem upload_via_curl_smallTierFail (w : World) (iid lp rp : String) (n : Nat)
    (hex : w.pathExists lp = true) (hsz : w.fileSize lp < 25 * 1048576)
    (hc : ∀ t u, ∃ e, w.curlSmall t u = .error e) (s : St) :
    ∃ s' tr, upload_via_curl w iid lp rp n s = (s', tr, .error (curlFailMsg n lp)) ∧
      tr.countP isScpEv = 0 ∧ s'.connected = s.connected := by
  obtain ⟨s', tr, hra, hcnt, hcn⟩ :=
    retryAttempts_count (smallBody w lp rp) isScpEv 0 (smallBody_curlFail w lp rp hc)
      (fun _ => rfl) n 0 s
  refine ⟨s', tr, ?_, by simpa using hcnt, hcn⟩
  simp [upload_via_curl, hex, hsz, M_bind_eq, M_pure_eq, mBind, mPure, mThrow, hra]

/-- C2: when every relay push raises, upload_file falls back to the
direct scp loop with the full original max_retries budget: if every scp
attempt exits nonzero too, the call raises the fatal upload error after
emitting exactly max_retries scp invocations (not a number reduced by the
relay attempts already consumed). -/
theorem c2_fallback_full_budget (w : World) (iid lp rp kp : String) (n : Nat) (s : St)
    (hconn : s.connected = true) (hst : w.connStatus = "connected")
    (hkp : w.envKeyPath = some kp) (hex : w.pathExists lp = true)
    (hsz : w.fileSize lp < 25 * 1048576)
    (hcf : ∀ t u, ∃ e, w.curlSmall t u = .error e)
    (hsf : ∀ t a, ∃ rc : Int, w.scpRun t a = .ok rc ∧ ¬ rc = 0)
    (hmk : ∀ t c tmo, ∃ o, w.execRemote t c tmo = .ok o) :
    ∃ s' tr, upload_file w iid lp rp n s = (s', tr, .error (uploadFailMsg n lp)) ∧
      tr.countP isScpEv = n := by
  obtain ⟨o, ho⟩ := hmk s.time ("mkdir -p " ++ parentDir rp) .none
  obtain ⟨s2, trc, hcurl, hc0, hc2conn⟩ :=
    upload_via_curl_smallTierFail w iid lp rp n hex hsz hcf { s with time := s.time + 1 }
  have hs2 : s2.connected = true := by rw [hc2conn]; exact hconn
  obtain ⟨s3, trs, hscp, hcnt, _⟩ :=
    retryAttempts_count
      (scpUploadBody w
        (scpUploadArgs ⟨.str w.connHost, w.connUser, w.connPort⟩ (w.expandUser kp) lp rp) rp)
      isScpEv 1 (scpUploadBody_scpFail w _ rp hsf) (fun _ => rfl) n 0 s2
  refine ⟨s3, Event.execRemote ("mkdir -p " ++ parentDir rp) .none ::
              (trc ++ Event.readEnv "SSH_PRIVATE_KEY_PATH" :: trs), ?_, ?_⟩
  · simp [upload_file, hex, ensure_connected_eval w iid s hconn, callExec_eval, ho,
          tryCatchM, hcurl, get_ssh_info_connected_eval w iid s2 hs2 hst,
          M_bind_eq, M_pure_eq, mBind, mPure, mEmit, mThrow, liftExc, hkp, hscp]
  · simp [List.countP_append, List.countP_cons, isScpEv, hc0, hcnt]

/-- C2 witness: the concrete world whose relay pushes raise and whose scp
always exits nonzero; the fallback runs all three scp attempts. -/
theorem c2_fallback_full_budget_witness :
    ∃ s' tr, upload_file wRelayFail "i" "/l/f.bin" "/r/f.bin" 3 ⟨true, 0⟩ =
      (s', tr, .error (uploadFailMsg 3 "/l/f.bin")) ∧ tr.countP isScpEv = 3 :=
  c2_fallback_full_budget wRelayFail "i" "/l/f.bin" "/r/f.bin" "/k" 3 ⟨true, 0⟩
    rfl rfl rfl rfl (by decide)
    (fun t u => ⟨"connection reset", rfl⟩)
    (fun t a => ⟨1, rfl, by decide⟩)
    (fun t c tmo => ⟨"success exists", rfl⟩)

theorem evPred_pure {P : Event → Prop} {α : Type} (a : α) : evPred P (pure a : M α) := by
  intro s e he
  simp [M_pure_eq, mPure] at he

theorem evPred_mThrow {P : Event → Prop} {α : Type} (msg : String) :
    evPred P (mThrow msg : M α) := by
  intro s e he
  simp [mThrow] at he

theorem evPred_liftExc {P : Event → Prop} {α : Type} (x : Except String α) :
    evPred P (liftExc x) := by
  intro s e he
  simp [liftExc] at he

theorem evPred_bind {P : Event → Prop} {α β : Type} {x : M α} {f : α → M β}
    (hx : evPred P x) (hf : ∀ a, evPred P (f a)) : evPred P (x >>= f) := by
  intro s e hmem
  rcases hxs : x s with ⟨s', tr, r⟩
  cases r with
  | ok a =>
    rcases hfa : f a s' with ⟨s'', tr', r'⟩
    rw [mBind_eval_ok hxs, hfa] at hmem
    simp only [List.mem_append] at hmem
    rcases hmem with h | h
    · exact hx s e (by rw [hxs]; exact h)
    · exact hf a s' e (by rw [hfa]; exact h)
  | error er =>
    rw [mBind_eval_err hxs] at hmem
    exact hx s e (by rw [hxs]; exact hmem)

theorem evPred_ite {P : Event → Prop} {α : Type} {c : Prop} [Decidable c] {m1 m2 : M α}
    (h1 : evPred P m1) (h2 : evPred P m2) : evPred P (if c then m1 else m2) := by
  by_cases h : c
  · simpa [h] using h1
  · simpa [h] using h2

theorem evPred_tryCatchM {P : Event → Prop} {α : Type} {m : M α} {h : String → M α}
    (hm : evPred P m) (hh : ∀ e, evPred P (h e)) : evPred P (tryCatchM m h) := by
  intro s e hmem
  rcases hms : m s with ⟨s', tr, r⟩
  cases r with
  | ok a =>
    rw [tryCatchM_eval_ok hms] at hmem
    exact hm s e (by rw [hms]; exact hmem)
  | error er =>
    rcases hhs : h er s' with ⟨s'', tr', r'⟩
    rw [tryCatchM_eval_err hms, hhs] at hmem
    simp only [List.mem_append] at hmem
    rcases hmem with hmem | hmem
    · exact hm s e (by rw [hms]; exact hmem)
    · exact hh er s' e (by rw [hhs]; exact hmem)

theorem evPred_callExec {P : Event → Prop} (w : World) (cmd : String) (tmo : Option Nat)
    (h : P (.execRemote cmd tmo)) : evPred P (callExec w cmd tmo) := by
  intro s e he
  simp [callExec_eval] at he
  exact he ▸ h

theorem evPred_callUuid {P : Event → Prop} (w : World) : evPred P (callUuid w) := by
  intro s e he
  simp [callUuid_eval] at he

theorem evPred_callCurlSmall {P : Event → Prop} (w : World) (url : String)
    (h : P (.curlSmallUpload url)) : evPred P (callCurlSmall w url) := by
  intro s e he
  simp [callCurlSmall_eval] at he
  exact he ▸ h

theorem evPred_callGofileServer {P : Event → Prop} (w : World)
    (h : P .curlGetServer) : evPred P (callGofileServer w) := by
  intro s e he
  simp [callGofileServer_eval] at he
  exact he ▸ h

theorem evPred_callGofileUpload {P : Event → Prop} (w : World) (server : String)
    (h : P (.curlLargeUpload server)) : evPred P (callGofileUpload w server) := by
  intro s e he
  simp [callGofileUpload_eval] at he
  exact he ▸ h

theorem evPred_mEmit {P : Event → Prop} {e : Event} (h : P e) : evPred P (mEmit e) := by
  intro s e' he
  simp [mEmit] at he
  exact he ▸ h

theorem evPred_dictStatusOk {P : Event → Prop} (v : JVal) : evPred P (dictStatusOk v) := by
  cases v <;> first | exact evPred_mThrow _ | exact evPred_pure _

theorem evPred_retryAttempts {P : Event → Prop} {body : M Bool}
    (hb : evPred P body) (hs : ∀ n, P (Event.sleep n)) :
    ∀ rem i, evPred P (retryAttempts body rem i) := by
  intro rem
  induction rem with
  | zero =>
    intro i s e he
    simp [retryAttempts, M_pure_eq, mPure] at he
  | succ rem ih =>
    intro i
    rw [retryAttempts]
    exact evPred_bind hb (fun b =>
      evPred_ite (evPred_pure _)
        (evPred_ite (evPred_pure _)
          (evPred_bind (evPred_mEmit (hs _)) (fun _ => ih (i + 1)))))

theorem smallAttempt_events {P : Event → Prop} (w : World) (lp rp : String)
    (h1 : ∀ u, P (.curlSmallUpload u)) (h2 : ∀ c t, P (.execRemote c t)) :
    evPred P (smallAttempt w lp rp) := by
  unfold smallAttempt
  refine evPred_bind (evPred_callUuid w) ?_
  intro u
  refine evPred_bind (evPred_callCurlSmall w _ (h1 _)) ?_
  intro outS
  refine evPred_bind (evPred_callExec w _ _ (h2 _ _)) ?_
  intro res
  refine evPred_ite ?_ ?_
  · refine evPred_bind (evPred_callExec w _ _ (h2 _ _)) ?_
    intro vr
    exact evPred_ite (evPred_pure _) (evPred_pure _)
  · exact evPred_pure _

theorem largeAttempt_events {P : Event → Prop} (w : World) (lp rp : String)
    (hg : P .curlGetServer) (hl : ∀ v, P (.curlLargeUpload v))
    (he : ∀ c t, P (.execRemote c t)) :
    evPred P (largeAttempt w lp rp) := by
  unfold largeAttempt
  refine evPred_bind (evPred_callGofileServer w hg) ?_
  intro sd
  refine evPred_bind (evPred_dictStatusOk sd) ?_
  intro statusOk
  refine evPred_ite (evPred_mThrow _) ?_
  refine evPred_bind (evPred_liftExc _) ?_
  intro dataV
  refine evPred_bind (evPred_liftExc _) ?_
  intro serverV
  refine evPred_bind (evPred_callGofileUpload w _ (hl _)) ?_
  intro ur
  refine evPred_bind (evPred_dictStatusOk ur) ?_
  intro upOk
  refine evPred_ite ?_ ?_
  · refine evPred_bind (evPred_liftExc _) ?_
    intro udata
    refine evPred_bind (evPred_liftExc _) ?_
    intro dp
    refine evPred_bind (evPred_liftExc _) ?_
    intro fid
    refine evPred_bind (evPred_liftExc _) ?_
    intro directLink
    refine evPred_bind (evPred_callExec w _ _ (he _ _)) ?_
    intro res
    refine evPred_ite ?_ ?_
    · refine evPred_bind (evPred_callExec w _ _ (he _ _)) ?_
      intro vr
      exact evPred_ite (evPred_pure _) (evPred_pure _)
    · exact evPred_pure _
  · exact evPred_pure _

theorem smallAttempt_first_event (w : World) (lp rp : String) (s : St) :
    ((smallAttempt w lp rp s).2.1).head? =
      some (Event.curlSmallUpload ("https://transfer.sh/" ++ (w.uuidHex s.time ++ "_" ++ basename lp))) := by
  cases hc2 : w.curlSmall (s.time + 1)
      ("https://transfer.sh/" ++ (w.uuidHex s.time ++ "_" ++ basename lp)) with
  | ok r =>
    simp only [smallAttempt, M_bind_eq, M_pure_eq, mBind, mPure, callUuid_eval,
               callCurlSmall_eval, liftExc]
    rw [hc2]
    rfl
  | error e =>
    simp only [smallAttempt, M_bind_eq, M_pure_eq, mBind, mPure, callUuid_eval,
               callCurlSmall_eval, liftExc]
    rw [hc2]
    rfl

theorem largeAttempt_first_event (w : World) (lp rp : String) (s : St) :
    ((largeAttempt w lp rp s).2.1).head? = some Event.curlGetServer := by
  cases hsd : w.gofileServer s.time with
  | ok sd =>
    simp only [largeAttempt, M_bind_eq, M_pure_eq, mBind, mPure, callGofileServer_eval, liftExc]
    rw [hsd]
    rfl
  | error e =>
    simp only [largeAttempt, M_bind_eq, M_pure_eq, mBind, mPure, callGofileServer_eval, liftExc]
    rw [hsd]
    rfl

theorem smallBody_first_event (w : World) (lp rp : String) (s : St) :
    ((smallBody w lp rp s).2.1).head? =
      some (Event.curlSmallUpload ("https://transfer.sh/" ++ (w.uuidHex s.time ++ "_" ++ basename lp))) := by
  have h0 := smallAttempt_first_event w lp rp s
  rcases ha : smallAttempt w lp rp s with ⟨s1, tr1, r1⟩
  rw [ha] at h0
  have h1 : tr1.head? =
      some (Event.curlSmallUpload ("https://transfer.sh/" ++ (w.uuidHex s.time ++ "_" ++ basename lp))) := h0
  cases r1 with
  | ok b =>
    unfold smallBody
    rw [tryCatchM_eval_ok ha]
    exact h1
  | error e =>
    unfold smallBody
    rw [tryCatchM_eval_err ha]
    cases tr1 with
    | nil => simp at h1
    | cons a t =>
      have hae : a = Event.curlSmallUpload
          ("https://transfer.sh/" ++ (w.uuidHex s.time ++ "_" ++ basename lp)) := by
        simpa using h1
      simp [hae]

theorem largeBody_first_event (w : World) (lp rp : String) (s : St) :
    ((largeBody w lp rp s).2.1).head? = some Event.curlGetServer := by
  have h0 := largeAttempt_first_event w lp rp s
  rcases ha : largeAttempt w lp rp s with ⟨s1, tr1, r1⟩
  rw [ha] at h0
  have h1 : tr1.head? = some Event.curlGetServer := h0
  cases r1 with
  | ok b =>
    unfold largeBody
    rw [tryCatchM_eval_ok ha]
    exact h1
  | error e =>
    unfold largeBody
    rw [tryCatchM_eval_err ha]
    cases tr1 with
    | nil => simp at h1
    | cons a t =>
      have hae : a = Event.curlGetServer := by simpa using h1
      simp [hae]

theorem retryAttempts_first_event (body : M Bool) {H : Event → Prop}
    (hb : ∀ s, ∃ e, ((body s).2.1).head? = some e ∧ H e) (m i : Nat) (s : St) :
    ∃ e, ((retryAttempts body (m + 1) i s).2.1).head? = some e ∧ H e := by
  obtain ⟨e0, h0, hH⟩ := hb s
  rcases hbs : body s with ⟨s1, tr1, r1⟩
  rw [hbs] at h0
  have h1 : tr1.head? = some e0 := h0
  refine ⟨e0, ?_, hH⟩
  cases tr1 with
  | nil => simp at h1
  | cons a t =>
    have hae : a = e0 := by simpa using h1
    cases r1 with
    | ok b =>
      rw [retryAttempts, mBind_eval_ok hbs]
      simp [hae]
    | error e =>
      rw [retryAttempts, mBind_eval_err hbs]
      simp [hae]

theorem smallBody_events {P : Event → Prop} (w : World) (lp rp : String)
    (h1 : ∀ u, P (.curlSmallUpload u)) (h2 : ∀ c t, P (.execRemote c t)) :
    evPred P (smallBody w lp rp) := by
  unfold smallBody
  exact evPred_tryCatchM (smallAttempt_events w lp rp h1 h2) (fun _ => evPred_pure _)

theorem largeBody_events {P : Event → Prop} (w : World) (lp rp : String)
    (hg : P .curlGetServer) (hl : ∀ v, P (.curlLargeUpload v))
    (he : ∀ c t, P (.execRemote c t)) :
    evPred P (largeBody w lp rp) := by
  unfold largeBody
  exact evPred_tryCatchM (largeAttempt_events w lp rp hg hl he) (fun _ => evPred_pure _)

/-- C3: the relay tier is decided once from the local file size in
megabytes.  Strictly below 25 MB, no run ever performs a large-file host
call, and with at least one attempt the first event is a push to the
small-file host.  From 25 MB strictly below 2000 MB, no run ever performs
a small-file host push, and with at least one attempt the first event is
the server lookup of the large-file host's directory service.  The last
conjunct runs the concrete 500 MB scenario: server lookup, then upload to
the returned server, then the remote fetch of the direct link and the
non-empty verification. -/
theorem c3_size_tiers :
    (∀ (w : World) (iid lp rp : String) (n : Nat) (s : St),
       w.pathExists lp = true → w.fileSize lp < 25 * 1048576 →
       (∀ e ∈ (upload_via_curl w iid lp rp n s).2.1, isGofileEv e = false) ∧
       (∀ m, n = m + 1 →
          ∃ u, ((upload_via_curl w iid lp rp n s).2.1).head? = some (Event.curlSmallUpload u)))
  ∧ (∀ (w : World) (iid lp rp : String) (n : Nat) (s : St),
       w.pathExists lp = true → 25 * 1048576 ≤ w.fileSize lp → w.fileSize lp < 2000 * 1048576 →
       (∀ e ∈ (upload_via_curl w iid lp rp n s).2.1, isSmallEv e = false) ∧
       (∀ m, n = m + 1 →
          ((upload_via_curl w iid lp rp n s).2.1).head? = some Event.curlGetServer))
  ∧ upload_via_curl wGo500 "i" "/l/f.bin" "/r/f.bin" 3 ⟨true, 0⟩ =
      (⟨true, 4⟩,
       [Event.curlGetServer, Event.curlLargeUpload "store1",
        Event.execRemote "curl -s -L 'https://store1.gofile.io/download/abc/f.bin' -o '/r/f.bin' && echo 'success'" (some 600),
        Event.execRemote "test -s '/r/f.bin' && echo 'exists'" .none],
       .ok ()) := by
  refine ⟨?_, ?_, ?_⟩
  · intro w iid lp rp n s hex hsz
    have hbr : upload_via_curl w iid lp rp n s =
        (do
          let ok ← retryAttempts (smallBody w lp rp) n 0
          if ok then pure () else mThrow (curlFailMsg n lp) : M Unit) s := by
      simp [upload_via_curl, hex, hsz]
    constructor
    · intro e he
      rw [hbr] at he
      exact (evPred_bind
        (evPred_retryAttempts
          (smallBody_events (P := fun e => isGofileEv e = false) w lp rp
            (fun u => rfl) (fun c t => rfl)) (fun _ => rfl) n 0)
        (fun ok => evPred_ite (evPred_pure _) (evPred_mThrow _))) s e he
    · intro m hm
      subst hm
      obtain ⟨e0, h0, hH⟩ := retryAttempts_first_event (smallBody w lp rp)
        (H := fun e => ∃ u, e = Event.curlSmallUpload u)
        (fun s' => ⟨_, smallBody_first_event w lp rp s', ⟨_, rfl⟩⟩) m 0 s
      obtain ⟨u, rfl⟩ := hH
      refine ⟨u, ?_⟩
      rw [hbr]
      rcases hL : retryAttempts (smallBody w lp rp) (m + 1) 0 s with ⟨sL, trL, rL⟩
      rw [hL] at h0
      have h1 : trL.head? = some (Event.curlSmallUpload u) := h0
      cases rL with
      | ok b =>
        rw [mBind_eval_ok hL]
        cases trL with
        | nil => simp at h1
        | cons a t =>
          have hae : a = Event.curlSmallUpload u := by simpa using h1
          simp [hae]
      | error e =>
        rw [mBind_eval_err hL]
        exact h1
  · intro w iid lp rp n s hex hlow hhigh
    have hn1 : ¬ w.fileSize lp < 25 * 1048576 := by omega
    have hbr : upload_via_curl w iid lp rp n s =
        (do
          let ok ← retryAttempts (largeBody w lp rp) n 0
          if ok then pure () else mThrow (curlFailMsg n lp) : M Unit) s := by
      simp [upload_via_curl, hex, hn1, hhigh]
    constructor
    · intro e he
      rw [hbr] at he
      exact (evPred_bind
        (evPred_retryAttempts
          (largeBody_events (P := fun e => isSmallEv e = false) w lp rp
            rfl (fun v => rfl) (fun c t => rfl)) (fun _ => rfl) n 0)
        (fun ok => evPred_ite (evPred_pure _) (evPred_mThrow _))) s e he
    · intro m hm
      subst hm
      obtain ⟨e0, h0, hH⟩ := retryAttempts_first_event (largeBody w lp rp)
        (H := fun e => e = Event.curlGetServer)
        (fun s' => ⟨_, largeBody_first_event w lp rp s', rfl⟩) m 0 s
      subst hH
      rw [hbr]
      rcases hL : retryAttempts (largeBody w lp rp) (m + 1) 0 s with ⟨sL, trL, rL⟩
      rw [hL] at h0
      have h1 : trL.head? = some Event.curlGetServer := h0
      cases rL with
      | ok b =>
        rw [mBind_eval_ok hL]
        cases trL with
        | nil => simp at h1
        | cons a t =>
          have hae : a = Event.curlGetServer := by simpa using h1
          simp [hae]
      | error e =>
        rw [mBind_eval_err hL]
        exact h1
  · rfl

/-- C3 witness: the first conjunct applied to the concrete small-file
world with a single attempt. -/
theorem c3_size_tiers_witness :
    ∃ u, ((upload_via_curl wBase "i" "/l/f.bin" "/r/f.bin" 1 ⟨true, 0⟩).2.1).head? =
      some (Event.curlSmallUpload u) :=
  (c3_size_tiers.1 wBase "i" "/l/f.bin" "/r/f.bin" 1 ⟨true, 0⟩ rfl (by decide)).2 0 rfl
